import Mathlib

/-!
Verification of the per-frame sample-construction, validation, rate-limiting and
dual-channel publish pipeline of `lsl_server.py` (`run_demo_with_lsl`).

Shallow embedding conventions:
* A Python float is `FloatQ := Option ℚ`: `none` models a non-finite value
  (`NaN`/`±inf`), `some q` a finite value.  The only non-finite values that can
  reach the publishers in the script are the `np.nan` sentinels, so the
  NaN/inf distinction is never observable.
* `time.time()` / `local_clock()` instants are rationals.
* The smoothing strategy (`KalmanSmoother` / `KDESmoother` / `NoSmoother`,
  external `eyetrax` collaborators) is an abstract state type `σ` with a
  `step : σ → ℤ → ℤ → σ × FloatQ × FloatQ` function; the pipeline is
  parametric in it, exactly as the script only calls `smoother.step`.
* Fallible Python code is `Except Unit`: `Except.error ()` models an uncaught
  exception escaping the frame loop.
-/

namespace LslServer

/-- A Python float value: `none` is non-finite (NaN/inf), `some q` is finite. -/
abbrev FloatQ := Option ℚ

/-- `np.isfinite(v)` for a float value. -/
def isFinite : FloatQ → Bool
  | some _ => true
  | none => false

/-- Python comparison `a <= b` on floats: any comparison with a non-finite
(NaN) value is false. -/
def pyLe : FloatQ → FloatQ → Bool
  | some a, some b => decide (a ≤ b)
  | _, _ => false

/-- Truncation toward zero, the behaviour of Python `int()` on a finite float. -/
def truncInt (q : ℚ) : ℤ := if 0 ≤ q then ⌊q⌋ else ⌈q⌉

/-- Python `int(x)` on a float: truncates toward zero; raises `ValueError` /
`OverflowError` on a non-finite argument (modelled as `Except.error ()`).
Used for `x, y = map(int, gaze_point)` (line 322). -/
def pyInt : FloatQ → Except Unit ℤ
  | some q => .ok (truncInt q)
  | none => .error ()

/-- `max(0.0, min(1.0, v))` — the `[0,1]` clamp (lines 308-309, 360-361). -/
def clamp01 (q : ℚ) : ℚ := max 0 (min 1 q)

/-- `max(-1.0, min(1.0, v))` — the z-axis clamp (line 310). -/
def clampZ (q : ℚ) : ℚ := max (-1) (min 1 q)

/-- `frame_interval = 1.0 / target_fps` with `target_fps = 30.0` (lines 281-282). -/
def frameInterval : ℚ := 1 / 30

/-- The inline per-stream rate-limiter test
`current_time - last_send_time >= frame_interval` (lines 392, 432). -/
def rateAccept (now last : ℚ) : Bool := decide (frameInterval ≤ now - last)

/-- The fixed 68-entry MediaPipe landmark index mapping `FACEMESH_68_INDICES`
(lines 82-109). -/
def FACEMESH_68_INDICES : List ℕ :=
  [234, 127, 162, 21, 54, 103, 67, 109, 10, 338, 297, 332, 284, 251, 389, 356, 454,
   70, 63, 105, 66, 107,
   336, 296, 334, 293, 300,
   168, 6, 197, 195,
   5, 4, 1, 19, 94,
   33, 160, 158, 133, 153, 144,
   362, 385, 387, 263, 373, 380,
   61, 185, 40, 39, 37, 0, 267, 269, 270, 409, 291, 375,
   78, 191, 80, 81, 82, 13, 312, 311]

/-- One raw 3-D landmark `(lm.x, lm.y, lm.z)`. -/
abbrev Landmark := FloatQ × FloatQ × FloatQ

/-- The per-axis validity test applied by the landmark builder at construction
time: finite and magnitude at most `10.0` (lines 303-306). -/
def facemeshConstructAxisValid : FloatQ → Bool
  | some q => decide (|q| ≤ 10)
  | none => false

/-- Loop body of lines 300-310 for a single landmark triple: a triple with any
non-finite or extreme (`|v| > 10.0`) axis is skipped, i.e. left at the NaN
sentinel; an accepted triple is clamped per axis. -/
def buildTriple : Landmark → List FloatQ
  | (some x, some y, some z) =>
      if 10 < |x| ∨ 10 < |y| ∨ 10 < |z| then [none, none, none]
      else [some (clamp01 x), some (clamp01 y), some (clampZ z)]
  | _ => [none, none, none]

/-- Lines 292-310: `facemesh_sample` starts as `[np.nan] * 204`; if a face is
detected, each of the 68 chosen landmarks is validated and written into its own
triple of slots (skipped triples keep the NaN sentinel). -/
def buildFacemesh : Option (ℕ → Landmark) → List FloatQ
  | none => List.replicate (68 * 3) none
  | some lm => (FACEMESH_68_INDICES.map (fun idx => buildTriple (lm idx))).flatten

/-- A 3-channel gaze sample `[x, y, blink]`. -/
abbrev GazeSample := FloatQ × FloatQ × FloatQ

/-- Lines 313-368: per-frame gaze candidate construction.  Parametric in the
smoothing strategy `step` and its state `s`; `w, h` are the screen dimensions;
`raw` is the point returned by `gaze_estimator.predict`.  Returns the candidate
(`none` = no-send) and the new smoother state, or `Except.error ()` when the
frame raises.  Note: `x, y = map(int, gaze_point)` (line 322) runs before the
`np.isfinite` test of line 325, so a non-finite raw point raises inside
`int(...)` and the line-325 test (always true on Python ints) is unreachable. -/
def buildGaze {σ : Type} (step : σ → ℤ → ℤ → σ × FloatQ × FloatQ) (s : σ)
    (w h : ℤ) (blink features : Bool) (raw : FloatQ × FloatQ) :
    Except Unit (Option GazeSample × σ) :=
  if blink then .ok (some (some 0, some 0, some 1), s)
  else if features then
    match pyInt raw.1, pyInt raw.2 with
    | .ok x, .ok y =>
        if 100000 < |x| ∨ 100000 < |y| then .ok (none, s)
        else
          let r := step s x y
          if w ≤ 0 ∨ h ≤ 0 then .ok (none, r.1)
          else match r.2.1, r.2.2 with
            | some px, some py =>
                -- division of finite rationals by a positive dimension is
                -- finite, so the post-division isfinite re-check (line 355)
                -- always passes here
                .ok (some (some (clamp01 (px / (w : ℚ))),
                           some (clamp01 (py / (h : ℚ))), some 0), r.1)
            | _, _ => .ok (none, r.1)
    | _, _ => .error ()
  else .ok (none, s)

/-- The per-value test of the gaze publisher's final validation loop
(lines 379-384): a number, finite, magnitude at most `10.0`. -/
def gazeAxisValid : FloatQ → Bool
  | some q => decide (|q| ≤ 10)
  | none => false

/-- `all_values_valid` over the three gaze channels (lines 379-384). -/
def gazeAllValid (g : GazeSample) : Bool :=
  gazeAxisValid g.1 && gazeAxisValid g.2.1 && gazeAxisValid g.2.2

/-- The `[0,1]` double-check on the gaze x and y channels (line 388). -/
def gazeRangeValid (g : GazeSample) : Bool :=
  pyLe (some 0) g.1 && pyLe g.1 (some 1) && pyLe (some 0) g.2.1 && pyLe g.2.1 (some 1)

/-- Lines 375-408: the gaze publish attempt.  Returns the pushed sample (if
any) and the new `last_gaze_send_time`.  `pushOk = false` models
`outlet.push_sample` raising a transport error: the exception is caught by the
surrounding `try` *before* `last_gaze_send_time` is assigned. -/
def publishGaze (samp : Option GazeSample) (now last : ℚ) (pushOk : Bool) :
    Option GazeSample × ℚ :=
  match samp with
  | none => (none, last)
  | some g =>
    if gazeAllValid g then
      if gazeRangeValid g then
        if rateAccept now last then
          if pushOk then (some g, now) else (none, last)
        else (none, last)
      else (none, last)
    else (none, last)

/-- The per-value test of the facemesh publisher's final validation loop
(lines 413-418): a number, finite, magnitude at most `100.0`. -/
def facemeshAxisValid : FloatQ → Bool
  | some q => decide (|q| ≤ 100)
  | none => false

/-- `all_valid` over the whole 204-entry facemesh sample (lines 413-418). -/
def facemeshAllValid (s : List FloatQ) : Bool := s.all facemeshAxisValid

/-- Lines 423-428: the publisher's `[0,1]` range check on x and y — it covers
only `range(0, 30, 3)`, i.e. the first ten landmark triples. -/
def facemeshRangeValid (s : List FloatQ) : Bool :=
  (List.range 10).all (fun k =>
    pyLe (some 0) (s.getD (3 * k) none) && pyLe (s.getD (3 * k) none) (some 1) &&
    pyLe (some 0) (s.getD (3 * k + 1) none) && pyLe (s.getD (3 * k + 1) none) (some 1))

/-- Lines 410-446: the facemesh publish attempt.  `not np.isnan(sample[0])`
(line 421) is `isFinite` of entry 0, NaN being the only non-finite value the
builder can leave in the sample. -/
def publishFacemesh (s : List FloatQ) (now last : ℚ) (pushOk : Bool) :
    Option (List FloatQ) × ℚ :=
  if facemeshAllValid s && isFinite (s.getD 0 none) then
    if facemeshRangeValid s then
      if rateAccept now last then
        if pushOk then (some s, now) else (none, last)
      else (none, last)
    else (none, last)
  else (none, last)

/-- The per-frame inputs coming from the external collaborators. -/
structure FrameInput where
  now : ℚ
  blink : Bool
  features : Bool
  raw : FloatQ × FloatQ
  face : Option (ℕ → Landmark)
  gazePushOk : Bool
  facePushOk : Bool

/-- The observable per-frame outcome: new smoother state, the two
`last_*_send_time` values, and what was pushed on each channel. -/
structure FrameOut (σ : Type) where
  smoother : σ
  lastGaze : ℚ
  lastFace : ℚ
  gazePushed : Option GazeSample
  facePushed : Option (List FloatQ)

/-- One iteration of the frame loop (lines 286-446): facemesh construction,
gaze construction (which may raise, see `buildGaze`), then the two independent
publish attempts at the single `current_time` read of line 373.  A raise in
gaze construction aborts the frame before either push. -/
def frameStep {σ : Type} (step : σ → ℤ → ℤ → σ × FloatQ × FloatQ)
    (w h : ℤ) (s : σ) (lastG lastF : ℚ) (f : FrameInput) :
    Except Unit (FrameOut σ) :=
  let fsample := buildFacemesh f.face
  match buildGaze step s w h f.blink f.features f.raw with
  | .error e => .error e
  | .ok (samp, s') =>
      let gz := publishGaze samp f.now lastG f.gazePushOk
      let fm := publishFacemesh fsample f.now lastF f.facePushOk
      .ok ⟨s', gz.2, fm.2, gz.1, fm.1⟩

/-- The gaze sample emitted by a frame, if any (an aborted frame emits none). -/
def gazeSent {σ : Type} : Except Unit (FrameOut σ) → Option GazeSample
  | .ok o => o.gazePushed
  | .error _ => none

/-- The facemesh sample emitted by a frame, if any. -/
def faceSent {σ : Type} : Except Unit (FrameOut σ) → Option (List FloatQ)
  | .ok o => o.facePushed
  | .error _ => none

/-- The `last_gaze_send_time` after a frame (default `d` if the frame raised). -/
def lastGazeOf {σ : Type} (d : ℚ) : Except Unit (FrameOut σ) → ℚ
  | .ok o => o.lastGaze
  | .error _ => d

/-- The sequence of accepted publish times of one stream's rate limiter, as a
fold of the inline test of lines 392-395 / 432-434 over a list of attempt
times (every attempt here carries an otherwise publishable sample). -/
def acceptedTimes : ℚ → List ℚ → List ℚ
  | _, [] => []
  | last, t :: ts =>
      if rateAccept t last then t :: acceptedTimes t ts else acceptedTimes last ts

/-- Pass-through smoothing variant (`NoSmoother`, selected at line 236):
stateless, returns its input. -/
def noSmootherStep : Unit → ℤ → ℤ → Unit × FloatQ × FloatQ :=
  fun s x y => (s, some (x : ℚ), some (y : ℚ))

/-- A face whose landmark at mesh index 234 (the first entry of
`FACEMESH_68_INDICES`) has a non-finite x, while every other landmark is
valid. -/
def badFace : ℕ → Landmark :=
  fun n => if n = 234 then (none, some (1 / 2), some 0) else (some (1 / 2), some (1 / 2), some 0)

/-- A face all of whose landmarks are valid and in range. -/
def goodFace : ℕ → Landmark := fun _ => (some 0, some 1, some 0)

/-- A frame with valid features predicting screen centre at time 1000. -/
def frame1 : FrameInput := ⟨1000, false, true, (some 960, some 540), none, true, true⟩

/-- A blink frame arriving `1/100` s (less than `1/30` s) later. -/
def frame2 : FrameInput := ⟨1000 + 1 / 100, true, false, (none, none), none, true, true⟩

/-! ### Helper lemmas -/

theorem clamp01_nonneg (q : ℚ) : 0 ≤ clamp01 q := le_max_left _ _

theorem clamp01_le_one (q : ℚ) : clamp01 q ≤ 1 :=
  max_le (by norm_num) (min_le_left _ _)

theorem clampZ_neg_one_le (q : ℚ) : -1 ≤ clampZ q := le_max_left _ _

theorem clampZ_le_one (q : ℚ) : clampZ q ≤ 1 :=
  max_le (by norm_num) (min_le_left _ _)

/-- A pushed gaze sample is the candidate itself and passed every gate. -/
theorem publishGaze_pushed {samp : Option GazeSample} {now last : ℚ} {ok : Bool}
    {g : GazeSample} (h : (publishGaze samp now last ok).1 = some g) :
    samp = some g ∧ gazeAllValid g = true ∧ gazeRangeValid g = true ∧
      rateAccept now last = true ∧ ok = true ∧
      (publishGaze samp now last ok).2 = now := by
  cases samp with
  | none => simp [publishGaze] at h
  | some g' =>
      simp only [publishGaze] at h ⊢
      repeat' split at h
      all_goals simp_all

/-- The gaze `last_send_time` is unchanged unless the frame's attempt pushed. -/
theorem publishGaze_state (samp : Option GazeSample) (now last : ℚ) (ok : Bool) :
    (publishGaze samp now last ok).2 = last ∨
      ((publishGaze samp now last ok).1.isSome = true ∧
        (publishGaze samp now last ok).2 = now) := by
  cases samp with
  | none => simp [publishGaze]
  | some g =>
      simp only [publishGaze]
      repeat' split
      all_goals simp

/-- A failed transport push (`push_sample` raising) leaves the gaze
`last_send_time` unchanged. -/
theorem publishGaze_push_fail (samp : Option GazeSample) (now last : ℚ) :
    (publishGaze samp now last false).2 = last ∧
      (publishGaze samp now last false).1 = none := by
  cases samp with
  | none => simp [publishGaze]
  | some g =>
      simp only [publishGaze]
      repeat' split
      all_goals simp_all

/-- A pushed facemesh sample is the candidate itself and passed every gate. -/
theorem publishFacemesh_pushed {s : List FloatQ} {now last : ℚ} {ok : Bool}
    {out : List FloatQ} (h : (publishFacemesh s now last ok).1 = some out) :
    out = s ∧ facemeshAllValid s = true ∧ facemeshRangeValid s = true ∧
      rateAccept now last = true ∧ ok = true ∧
      (publishFacemesh s now last ok).2 = now := by
  simp only [publishFacemesh] at h ⊢
  repeat' split at h
  all_goals simp_all

/-- The facemesh `last_send_time` is unchanged unless the attempt pushed. -/
theorem publishFacemesh_state (s : List FloatQ) (now last : ℚ) (ok : Bool) :
    (publishFacemesh s now last ok).2 = last ∨
      ((publishFacemesh s now last ok).1.isSome = true ∧
        (publishFacemesh s now last ok).2 = now) := by
  simp only [publishFacemesh]
  repeat' split
  all_goals simp

/-- A failed transport push leaves the facemesh `last_send_time` unchanged. -/
theorem publishFacemesh_push_fail (s : List FloatQ) (now last : ℚ) :
    (publishFacemesh s now last false).2 = last ∧
      (publishFacemesh s now last false).1 = none := by
  simp only [publishFacemesh]
  repeat' split
  all_goals simp_all

/-- A sample containing a sentinel entry anywhere fails `all_valid` and is
never pushed. -/
theorem publishFacemesh_blocked_of_sentinel {s : List FloatQ} (now last : ℚ)
    (ok : Bool) (hv : none ∈ s) : (publishFacemesh s now last ok).1 = none := by
  have hall : facemeshAllValid s = false := by
    simp only [facemeshAllValid, List.all_eq_false]
    exact ⟨none, hv, by simp [facemeshAxisValid]⟩
  simp [publishFacemesh, hall]

/-- Every gaze candidate the builder can emit is either the blink payload or a
clamped gaze payload with third channel 0. -/
theorem buildGaze_shape {σ : Type} {step : σ → ℤ → ℤ → σ × FloatQ × FloatQ}
    {s : σ} {w h : ℤ} {blink features : Bool} {raw : FloatQ × FloatQ}
    {g : GazeSample} {s' : σ}
    (hb : buildGaze step s w h blink features raw = .ok (some g, s')) :
    g = (some 0, some 0, some 1) ∨
      ∃ a b : ℚ, g = (some (clamp01 a), some (clamp01 b), some 0) := by
  unfold buildGaze at hb
  repeat' split at hb
  all_goals try simp_all
  rcases hx : (step s _ _).2.1 with _ | px <;> rcases hy : (step s _ _).2.2 with _ | py <;>
    rw [hx, hy] at hb <;> simp_all
  exact .inr ⟨_, _, hb.1.symm⟩

/-- What a frame emits on the gaze channel, in terms of the builder and the
gaze publisher. -/
theorem gazeSent_frameStep {σ : Type} (step : σ → ℤ → ℤ → σ × FloatQ × FloatQ)
    (w h : ℤ) (s : σ) (lastG lastF : ℚ) (f : FrameInput) :
    gazeSent (frameStep step w h s lastG lastF f) =
      (match buildGaze step s w h f.blink f.features f.raw with
       | .error _ => none
       | .ok (samp, _) => (publishGaze samp f.now lastG f.gazePushOk).1) := by
  unfold frameStep gazeSent
  rcases buildGaze step s w h f.blink f.features f.raw with _ | ⟨samp, s'⟩ <;> rfl

/-- Invariant of the accepted-times fold: every accepted time is at least one
frame interval after the fold's starting `last`, and consecutive (hence all)
accepted times are at least one frame interval apart. -/
theorem acceptedTimes_strong : ∀ (ts : List ℚ) (last : ℚ),
    (∀ b ∈ acceptedTimes last ts, frameInterval ≤ b - last) ∧
      List.Pairwise (fun a b => frameInterval ≤ b - a) (acceptedTimes last ts)
  | [], last => by simp [acceptedTimes]
  | t :: ts, last => by
      have IH := acceptedTimes_strong ts
      unfold acceptedTimes
      by_cases hacc : rateAccept t last = true
      · rw [if_pos hacc]
        have hlt : frameInterval ≤ t - last := by
          simpa [rateAccept] using hacc
        have hmem : ∀ b ∈ acceptedTimes t ts, frameInterval ≤ b - t := (IH t).1
        refine ⟨?_, List.pairwise_cons.mpr ⟨hmem, (IH t).2⟩⟩
        intro b hb
        rcases List.mem_cons.mp hb with rfl | hb'
        · exact hlt
        · have h1 := hmem b hb'
          have h0 : (0 : ℚ) ≤ frameInterval := by norm_num [frameInterval]
          linarith
      · rw [if_neg hacc]
        exact IH last

theorem rateAccept_true {now last : ℚ} (h : frameInterval ≤ now - last) :
    rateAccept now last = true := by
  unfold rateAccept
  rw [decide_eq_true_eq]
  exact h

theorem rateAccept_false {now last : ℚ} (h : ¬ frameInterval ≤ now - last) :
    rateAccept now last = false := by
  unfold rateAccept
  rw [decide_eq_false_iff_not]
  exact h

theorem facemeshAxisValid_of_bounds {q : ℚ} (h1 : -1 ≤ q) (h2 : q ≤ 1) :
    facemeshAxisValid (some q) = true := by
  rw [show facemeshAxisValid (some q) = decide (|q| ≤ 100) from rfl, decide_eq_true_eq, abs_le]
  constructor <;> linarith

theorem gazeAxisValid_of_bounds {q : ℚ} (h1 : -1 ≤ q) (h2 : q ≤ 1) :
    gazeAxisValid (some q) = true := by
  rw [show gazeAxisValid (some q) = decide (|q| ≤ 10) from rfl, decide_eq_true_eq, abs_le]
  constructor <;> linarith

theorem buildTriple_length (t : Landmark) : (buildTriple t).length = 3 := by
  rcases t with ⟨(_ | qx), (_ | qy), (_ | qz)⟩ <;> simp [buildTriple]
  split <;> simp

/-- Every entry of a built landmark triple is the sentinel or passes the
publisher's per-value check. -/
theorem buildTriple_mem {t : Landmark} {v : FloatQ} (hv : v ∈ buildTriple t) :
    v = none ∨ facemeshAxisValid v = true := by
  rcases t with ⟨(_ | qx), (_ | qy), (_ | qz)⟩ <;> simp [buildTriple] at hv <;>
    try exact .inl hv
  split at hv
  · simp at hv
    exact .inl hv
  · simp at hv
    rcases hv with rfl | rfl | rfl
    · exact .inr (facemeshAxisValid_of_bounds
        (by linarith [clamp01_nonneg qx]) (clamp01_le_one qx))
    · exact .inr (facemeshAxisValid_of_bounds
        (by linarith [clamp01_nonneg qy]) (clamp01_le_one qy))
    · exact .inr (facemeshAxisValid_of_bounds (clampZ_neg_one_le qz) (clampZ_le_one qz))

/-- Indexing into the flattening of a map whose blocks all have length 3:
block `i` of the result is exactly the image of element `i`. -/
theorem flatten_map_block {α : Type} (g : ℕ → List α) (hg : ∀ x, (g x).length = 3) :
    ∀ (l : List ℕ) (i : ℕ), i < l.length →
      ((l.map g).flatten.drop (3 * i)).take 3 = g (l.getD i 0)
  | [], i, hi => absurd hi (by simp)
  | a :: l, 0, _ => by
      simp only [List.map_cons, List.flatten_cons, Nat.mul_zero, List.drop_zero,
        List.getD_cons_zero]
      rw [← hg a]
      exact List.take_left _ _
  | a :: l, i + 1, hi => by
      simp only [List.map_cons, List.flatten_cons, List.getD_cons_succ]
      have h3 : 3 * (i + 1) = (g a).length + 3 * i := by rw [hg a]; ring
      rw [h3, List.drop_append]
      exact flatten_map_block g hg l i (by simpa using hi)

/-- Entry `3*k + j` of a built facemesh sample is entry `j` of the triple
built from the landmark chosen for block `k` — it depends on no other
landmark. -/
theorem buildFacemesh_getD (lm : ℕ → Landmark) (k j : ℕ) (hk : k < 68) (hj : j < 3) :
    (buildFacemesh (some lm)).getD (3 * k + j) none =
      (buildTriple (lm (FACEMESH_68_INDICES.getD k 0))).getD j none := by
  have hb : ((buildFacemesh (some lm)).drop (3 * k)).take 3 =
      buildTriple (lm (FACEMESH_68_INDICES.getD k 0)) :=
    flatten_map_block (fun idx => buildTriple (lm idx)) (fun _ => buildTriple_length _)
      FACEMESH_68_INDICES k (by rw [show FACEMESH_68_INDICES.length = 68 from rfl]; exact hk)
  have h1 : (buildFacemesh (some lm)).getD (3 * k + j) none
      = ((buildFacemesh (some lm)).drop (3 * k)).getD j none := by
    simp [List.getD_eq_getElem?_getD, List.getElem?_drop]
  have h2 : ((buildFacemesh (some lm)).drop (3 * k)).getD j none
      = (((buildFacemesh (some lm)).drop (3 * k)).take 3).getD j none := by
    simp [List.getD_eq_getElem?_getD, List.getElem?_take, hj]
  rw [h1, h2, hb]

theorem goodFace_triple (n : ℕ) :
    buildTriple (goodFace n) = [some 0, some 1, some 0] := by
  norm_num [goodFace, buildTriple, clamp01, clampZ, min_def, max_def]

theorem goodFace_mem {v : FloatQ} (hv : v ∈ buildFacemesh (some goodFace)) :
    v ∈ ([some 0, some 1, some 0] : List FloatQ) := by
  rw [show buildFacemesh (some goodFace) =
      (FACEMESH_68_INDICES.map (fun idx => buildTriple (goodFace idx))).flatten from rfl] at hv
  obtain ⟨l, hl, hvl⟩ := List.mem_flatten.mp hv
  obtain ⟨idx, -, rfl⟩ := List.mem_map.mp hl
  rwa [goodFace_triple] at hvl

/-- With every landmark valid and in range, the facemesh publish succeeds. -/
theorem goodFace_publish :
    publishFacemesh (buildFacemesh (some goodFace)) 100 0 true =
      (some (buildFacemesh (some goodFace)), 100) := by
  have hall : facemeshAllValid (buildFacemesh (some goodFace)) = true := by
    rw [facemeshAllValid, List.all_eq_true]
    intro v hv
    have hm := goodFace_mem hv
    simp only [List.mem_cons, List.not_mem_nil, or_false] at hm
    rcases hm with rfl | rfl | rfl <;>
      exact facemeshAxisValid_of_bounds (by norm_num) (by norm_num)
  have hhead : (buildFacemesh (some goodFace)).getD 0 none = some 0 := by
    have h := buildFacemesh_getD goodFace 0 0 (by norm_num) (by norm_num)
    rw [goodFace_triple] at h
    simpa using h
  have hrange : facemeshRangeValid (buildFacemesh (some goodFace)) = true := by
    rw [facemeshRangeValid, List.all_eq_true]
    intro k hk
    have hk10 : k < 10 := List.mem_range.mp hk
    have hx := buildFacemesh_getD goodFace k 0 (by omega) (by omega)
    have hy := buildFacemesh_getD goodFace k 1 (by omega) (by omega)
    rw [goodFace_triple] at hx hy
    rw [show 3 * k + 0 = 3 * k from by ring] at hx
    simp only [List.getD_cons_zero, List.getD_cons_succ] at hx hy
    rw [hx, hy]
    norm_num [pyLe]
  rw [publishFacemesh, hall, hhead,
    rateAccept_true (show frameInterval ≤ (100 : ℚ) - 0 by norm_num [frameInterval]), hrange]
  simp [isFinite]

/-- With no face detected the sample is all-sentinel and is never pushed. -/
theorem facemesh_no_face_not_sent (now last : ℚ) (ok : Bool) :
    publishFacemesh (buildFacemesh none) now last ok = (none, last) := by
  have hall : facemeshAllValid (buildFacemesh none) = false := by
    rw [facemeshAllValid, List.all_eq_false]
    exact ⟨none, List.mem_replicate.mpr ⟨by norm_num, rfl⟩, by simp [facemeshAxisValid]⟩
  simp [publishFacemesh, hall]

/-- What a frame emits on the facemesh channel, in terms of the builder and
the facemesh publisher. -/
theorem faceSent_frameStep {σ : Type} (step : σ → ℤ → ℤ → σ × FloatQ × FloatQ)
    (w h : ℤ) (s : σ) (lastG lastF : ℚ) (f : FrameInput) :
    faceSent (frameStep step w h s lastG lastF f) =
      (match buildGaze step s w h f.blink f.features f.raw with
       | .error _ => none
       | .ok _ => (publishFacemesh (buildFacemesh f.face) f.now lastF f.facePushOk).1) := by
  unfold frameStep faceSent
  rcases buildGaze step s w h f.blink f.features f.raw with _ | ⟨samp, s'⟩ <;> rfl

/-- A non-raising frame, written out in terms of its two publish attempts. -/
theorem frameStep_ok {σ : Type} (step : σ → ℤ → ℤ → σ × FloatQ × FloatQ)
    (w h : ℤ) (s : σ) (lastG lastF : ℚ) (f : FrameInput)
    {samp : Option GazeSample} {s' : σ}
    (hb : buildGaze step s w h f.blink f.features f.raw = .ok (samp, s')) :
    frameStep step w h s lastG lastF f =
      .ok ⟨s', (publishGaze samp f.now lastG f.gazePushOk).2,
           (publishFacemesh (buildFacemesh f.face) f.now lastF f.facePushOk).2,
           (publishGaze samp f.now lastG f.gazePushOk).1,
           (publishFacemesh (buildFacemesh f.face) f.now lastF f.facePushOk).1⟩ := by
  unfold frameStep
  rw [hb]

/-! ### Claim theorems -/

/-- C2: the claim that the per-frame path never raises is contradicted by the
code: with features present, no blink, and a gaze regression returning a
non-finite raw point, `x, y = map(int, gaze_point)` (line 322) raises before
the finiteness check of line 325 can run, and no `try` encloses it — the frame
loop aborts with an uncaught exception. -/
theorem nonfinite_raw_point_raises :
    frameStep noSmootherStep 1920 1080 () 0 0
      ⟨100, false, true, (none, some 0), none, true, true⟩ = .error () := rfl

/-- C6: when the blink flag is true the gaze candidate is exactly
`(0.0, 0.0, 1.0)`, for every feature presence, every raw point, and every
smoothing strategy, and the smoother state is returned untouched (the
smoothing step is not invoked). -/
theorem blink_payload_exact {σ : Type} (step : σ → ℤ → ℤ → σ × FloatQ × FloatQ)
    (s : σ) (w h : ℤ) (features : Bool) (raw : FloatQ × FloatQ) :
    buildGaze step s w h true features raw = .ok (some (some 0, some 0, some 1), s) := rfl

/-- C3: the 30 Hz limiter of the gaze channel accepts an otherwise publishable
sample and records `now` iff `now - last ≥ 1/30`; a declined attempt leaves
the last-accepted time unchanged; and along any attempt sequence any two
accepted times are at least `1/30` apart. -/
theorem rate_limiter_contract (g : GazeSample) (now last : ℚ)
    (hv : gazeAllValid g = true) (hr : gazeRangeValid g = true) :
    frameInterval = 1 / 30 ∧
    ((publishGaze (some g) now last true).1.isSome = true ↔ frameInterval ≤ now - last) ∧
    ((publishGaze (some g) now last true).1.isSome = true →
       (publishGaze (some g) now last true).2 = now) ∧
    ((publishGaze (some g) now last true).1 = none →
       (publishGaze (some g) now last true).2 = last) ∧
    ∀ (last0 : ℚ) (ts : List ℚ),
      List.Pairwise (fun a b => frameInterval ≤ b - a) (acceptedTimes last0 ts) := by
  refine ⟨rfl, ?_, ?_, ?_, fun last0 ts => (acceptedTimes_strong ts last0).2⟩ <;>
    by_cases hacc : frameInterval ≤ now - last <;>
      simp [publishGaze, hv, hr, rateAccept, hacc]

/-- C1: every gaze sample a frame pushes has x and y within `[0,1]` and its
third channel exactly 0 or exactly 1. -/
theorem published_gaze_in_range {σ : Type} (step : σ → ℤ → ℤ → σ × FloatQ × FloatQ)
    (w h : ℤ) (s : σ) (lastG lastF : ℚ) (f : FrameInput) (x y b : FloatQ)
    (hp : gazeSent (frameStep step w h s lastG lastF f) = some (x, y, b)) :
    (∃ qx, x = some qx ∧ 0 ≤ qx ∧ qx ≤ 1) ∧
    (∃ qy, y = some qy ∧ 0 ≤ qy ∧ qy ≤ 1) ∧
    (b = some 0 ∨ b = some 1) := by
  rw [gazeSent_frameStep] at hp
  rcases hb : buildGaze step s w h f.blink f.features f.raw with e | ⟨samp, s'⟩ <;>
    rw [hb] at hp
  · simp at hp
  · simp only at hp
    obtain ⟨rfl, hall, hrange, -, -, -⟩ := publishGaze_pushed hp
    simp only [gazeRangeValid, Bool.and_eq_true] at hrange
    obtain ⟨⟨⟨h0x, hx1⟩, h0y⟩, hy1⟩ := hrange
    refine ⟨?_, ?_, ?_⟩
    · cases x with
      | none => simp [pyLe] at h0x
      | some qx =>
          exact ⟨qx, rfl, by simpa [pyLe] using h0x, by simpa [pyLe] using hx1⟩
    · cases y with
      | none => simp [pyLe] at h0y
      | some qy =>
          exact ⟨qy, rfl, by simpa [pyLe] using h0y, by simpa [pyLe] using hy1⟩
    · rcases buildGaze_shape hb with hg | ⟨a, c, hg⟩ <;>
        simp only [Prod.mk.injEq] at hg
      · exact .inr hg.2.2
      · exact .inl hg.2.2

/-- Witness for C1: a blink frame at time 100 pushes `(0, 0, 1)`. -/
theorem published_gaze_in_range_witness :
    (∃ qx, (some 0 : FloatQ) = some qx ∧ 0 ≤ qx ∧ qx ≤ 1) ∧
    (∃ qy, (some 0 : FloatQ) = some qy ∧ 0 ≤ qy ∧ qy ≤ 1) ∧
    ((some 1 : FloatQ) = some 0 ∨ (some 1 : FloatQ) = some 1) :=
  published_gaze_in_range noSmootherStep 1920 1080 () 0 0
    ⟨100, true, false, (none, none), none, true, true⟩ (some 0) (some 0) (some 1)
    (by
      rw [frameStep_ok noSmootherStep 1920 1080 () 0 0
        ⟨100, true, false, (none, none), none, true, true⟩ rfl]
      show (publishGaze (some (some 0, some 0, some 1)) 100 0 true).1 = _
      have h1 : gazeAllValid (some 0, some 0, some 1) = true := by
        norm_num [gazeAllValid, gazeAxisValid]
      have h2 : gazeRangeValid (some 0, some 0, some 1) = true := by
        norm_num [gazeRangeValid, pyLe]
      simp [publishGaze, h1, h2,
        rateAccept_true (show frameInterval ≤ (100 : ℚ) - 0 by norm_num [frameInterval])])

/-- C4 counterexample: with the landmark at mesh index 234 non-finite and all
other landmarks valid, the first triple is left at the sentinel, the second
triple is built normally — yet nothing at all is published on the facemesh
channel that frame, so the remaining valid triples are blocked. -/
theorem one_bad_landmark_blocks_publish :
    ((buildFacemesh (some badFace)).drop (3 * 0)).take 3 = [none, none, none] ∧
    ((buildFacemesh (some badFace)).drop (3 * 1)).take 3 =
      [some (1 / 2), some (1 / 2), some 0] ∧
    (publishFacemesh (buildFacemesh (some badFace)) 100 0 true).1 = none := by
  have h0 : ((buildFacemesh (some badFace)).drop (3 * 0)).take 3 =
      buildTriple (badFace (FACEMESH_68_INDICES.getD 0 0)) :=
    flatten_map_block (fun idx => buildTriple (badFace idx)) (fun _ => buildTriple_length _)
      FACEMESH_68_INDICES 0 (by rw [show FACEMESH_68_INDICES.length = 68 from rfl]; norm_num)
  have h1 : ((buildFacemesh (some badFace)).drop (3 * 1)).take 3 =
      buildTriple (badFace (FACEMESH_68_INDICES.getD 1 0)) :=
    flatten_map_block (fun idx => buildTriple (badFace idx)) (fun _ => buildTriple_length _)
      FACEMESH_68_INDICES 1 (by rw [show FACEMESH_68_INDICES.length = 68 from rfl]; norm_num)
  have h0' : ((buildFacemesh (some badFace)).drop (3 * 0)).take 3 = [none, none, none] := by
    rw [h0]; rfl
  refine ⟨h0', ?_, ?_⟩
  · rw [h1, show FACEMESH_68_INDICES.getD 1 0 = 127 from rfl]
    norm_num [badFace, buildTriple, clamp01, clampZ, min_def, max_def, abs_of_nonneg]
  · have hmem : (none : FloatQ) ∈ buildFacemesh (some badFace) := by
      apply List.mem_of_mem_take (n := 3)
      rw [show (3 : ℕ) * 0 = 0 from rfl, List.drop_zero] at h0'
      rw [h0']
      simp
    exact publishFacemesh_blocked_of_sentinel 100 0 true hmem

/-- C4 corrected: rejection is independent per triple at construction — block
`i` of the built sample is exactly the validated/clamped image of the single
landmark chosen for block `i`, so one bad landmark leaves only its own triple
at the sentinel; however, the publisher's final validation drops any sample
containing a sentinel entry, so the frame's remaining valid triples are not
published. -/
theorem landmark_rejection_independent_at_construction :
    (∀ (lm : ℕ → Landmark) (i : ℕ), i < 68 →
       ((buildFacemesh (some lm)).drop (3 * i)).take 3 =
         buildTriple (lm (FACEMESH_68_INDICES.getD i 0))) ∧
    (∀ (s : List FloatQ) (now last : ℚ) (ok : Bool), none ∈ s →
       (publishFacemesh s now last ok).1 = none) := by
  constructor
  · intro lm i hi
    exact flatten_map_block (fun idx => buildTriple (lm idx)) (fun _ => buildTriple_length _)
      FACEMESH_68_INDICES i (by rw [show FACEMESH_68_INDICES.length = 68 from rfl]; exact hi)
  · intro s now last ok hmem
    exact publishFacemesh_blocked_of_sentinel now last ok hmem

/-- Witness for C4's corrected claim at block 1 of a fully valid face and at a
one-entry sentinel sample. -/
theorem landmark_rejection_independent_at_construction_witness :
    ((buildFacemesh (some goodFace)).drop (3 * 1)).take 3 =
      buildTriple (goodFace (FACEMESH_68_INDICES.getD 1 0)) ∧
    (publishFacemesh [none] 1 0 true).1 = none :=
  ⟨landmark_rejection_independent_at_construction.1 goodFace 1 (by norm_num),
   landmark_rejection_independent_at_construction.2 [none] 1 0 true (by simp)⟩

/-- C5 counterexample: the bounds diverge between construction and publish.
`50` is extreme for the landmark builder (threshold 10, lines 305-306) but
passes the facemesh publisher's final check (threshold 100, line 415); and
`50` passes the raw-gaze extreme gate (threshold 100000, line 331) but fails
the gaze publisher's final check (threshold 10, line 381). -/
theorem construction_and_publish_bounds_differ :
    facemeshConstructAxisValid (some 50) = false ∧ facemeshAxisValid (some 50) = true ∧
    gazeAxisValid (some 50) = false ∧ ¬(100000 < |(50 : ℤ)|) := by
  refine ⟨?_, ?_, ?_, by norm_num⟩
  · rw [show facemeshConstructAxisValid (some 50) = decide (|(50 : ℚ)| ≤ 10) from rfl,
      decide_eq_false_iff_not]
    norm_num [abs_of_nonneg]
  · rw [show facemeshAxisValid (some 50) = decide (|(50 : ℚ)| ≤ 100) from rfl,
      decide_eq_true_eq]
    norm_num [abs_of_nonneg]
  · rw [show gazeAxisValid (some 50) = decide (|(50 : ℚ)| ≤ 10) from rfl,
      decide_eq_false_iff_not]
    norm_num [abs_of_nonneg]

/-- C5 corrected: the construction-time and publish-time predicates are not
the same (they differ in threshold and coverage), but they never disagree on a
builder output: every non-sentinel value a builder constructs passes the
publisher's final per-value check, and every gaze candidate the builder emits
passes the gaze publisher's full validation and range check. -/
theorem builder_outputs_pass_publish_check :
    (∀ (face : Option (ℕ → Landmark)) (v : FloatQ), v ∈ buildFacemesh face →
       v = none ∨ facemeshAxisValid v = true) ∧
    (∀ (σ : Type) (step : σ → ℤ → ℤ → σ × FloatQ × FloatQ) (s : σ) (w h : ℤ)
       (blink features : Bool) (raw : FloatQ × FloatQ) (g : GazeSample) (s' : σ),
       buildGaze step s w h blink features raw = Except.ok (some g, s') →
       gazeAllValid g = true ∧ gazeRangeValid g = true) := by
  constructor
  · rintro (_ | lm) v hv
    · rw [show buildFacemesh none = List.replicate (68 * 3) none from rfl] at hv
      exact .inl (List.mem_replicate.mp hv).2
    · rw [show buildFacemesh (some lm) =
          (FACEMESH_68_INDICES.map (fun idx => buildTriple (lm idx))).flatten from rfl] at hv
      obtain ⟨l, hl, hvl⟩ := List.mem_flatten.mp hv
      obtain ⟨idx, -, rfl⟩ := List.mem_map.mp hl
      exact buildTriple_mem hvl
  · intro σ step s w h blink features raw g s' hb
    rcases buildGaze_shape hb with hg | ⟨a, c, hg⟩ <;> subst hg
    · exact ⟨by norm_num [gazeAllValid, gazeAxisValid],
        by norm_num [gazeRangeValid, pyLe]⟩
    · constructor
      · simp only [gazeAllValid, Bool.and_eq_true]
        refine ⟨⟨?_, ?_⟩, ?_⟩
        · exact gazeAxisValid_of_bounds (by linarith [clamp01_nonneg a]) (clamp01_le_one a)
        · exact gazeAxisValid_of_bounds (by linarith [clamp01_nonneg c]) (clamp01_le_one c)
        · norm_num [gazeAxisValid]
      · simp only [gazeRangeValid, Bool.and_eq_true, pyLe, decide_eq_true_eq]
        exact ⟨⟨⟨clamp01_nonneg a, clamp01_le_one a⟩, clamp01_nonneg c⟩, clamp01_le_one c⟩

/-- Witness for C5's corrected claim at a sentinel facemesh entry and at the
blink candidate. -/
theorem builder_outputs_pass_publish_check_witness :
    ((none : FloatQ) = none ∨ facemeshAxisValid none = true) ∧
    (gazeAllValid (some 0, some 0, some 1) = true ∧
      gazeRangeValid (some 0, some 0, some 1) = true) :=
  ⟨builder_outputs_pass_publish_check.1 none none (by
      rw [show buildFacemesh none = List.replicate (68 * 3) none from rfl]
      exact List.mem_replicate.mpr ⟨by norm_num, rfl⟩),
   builder_outputs_pass_publish_check.2 Unit noSmootherStep () 1920 1080 true true
     (none, none) (some 0, some 0, some 1) () rfl⟩

/-- Witness for C3 at a concrete blink sample and times `now = 1`, `last = 0`. -/
theorem rate_limiter_contract_witness :
    frameInterval = 1 / 30 ∧
    ((publishGaze (some (some 0, some 0, some 1)) 1 0 true).1.isSome = true ↔
       frameInterval ≤ 1 - 0) ∧
    ((publishGaze (some (some 0, some 0, some 1)) 1 0 true).1.isSome = true →
       (publishGaze (some (some 0, some 0, some 1)) 1 0 true).2 = 1) ∧
    ((publishGaze (some (some 0, some 0, some 1)) 1 0 true).1 = none →
       (publishGaze (some (some 0, some 0, some 1)) 1 0 true).2 = 0) ∧
    ∀ (last0 : ℚ) (ts : List ℚ),
      List.Pairwise (fun a b => frameInterval ≤ b - a) (acceptedTimes last0 ts) :=
  rate_limiter_contract (some 0, some 0, some 1) 1 0
    (by norm_num [gazeAllValid, gazeAxisValid])
    (by norm_num [gazeRangeValid, pyLe])

/-- C7: under the suppress policy (selected by this script) an invalid frame —
no features and no blink, a finite-but-extreme raw point, or a non-finite
smoothed point — emits no gaze sample at all. -/
theorem suppress_invalid_no_emit {σ : Type} (step : σ → ℤ → ℤ → σ × FloatQ × FloatQ)
    (w h : ℤ) (s : σ) (lastG lastF : ℚ) (f : FrameInput) (hbl : f.blink = false) :
    (f.features = false → gazeSent (frameStep step w h s lastG lastF f) = none) ∧
    (∀ qx qy : ℚ, f.features = true → f.raw = (some qx, some qy) →
       (100000 < |truncInt qx| ∨ 100000 < |truncInt qy|) →
       gazeSent (frameStep step w h s lastG lastF f) = none) ∧
    (∀ qx qy : ℚ, f.features = true → f.raw = (some qx, some qy) →
       ¬(100000 < |truncInt qx| ∨ 100000 < |truncInt qy|) →
       ((step s (truncInt qx) (truncInt qy)).2.1 = none ∨
        (step s (truncInt qx) (truncInt qy)).2.2 = none) →
       gazeSent (frameStep step w h s lastG lastF f) = none) := by
  rw [gazeSent_frameStep]
  refine ⟨?_, ?_, ?_⟩
  · intro hf
    have hb : buildGaze step s w h f.blink f.features f.raw = .ok (none, s) := by
      rw [hbl, hf]
      rfl
    rw [hb]
    simp [publishGaze]
  · intro qx qy hf hraw hext
    have hb : buildGaze step s w h f.blink f.features f.raw = .ok (none, s) := by
      rw [hbl, hf, hraw]
      show buildGaze step s w h false true (some qx, some qy) = .ok (none, s)
      unfold buildGaze
      simp only [Bool.false_eq_true, if_false, if_true, pyInt]
      rw [if_pos hext]
    rw [hb]
    simp [publishGaze]
  · intro qx qy hf hraw hext hsm
    have hb : ∃ s', buildGaze step s w h f.blink f.features f.raw = .ok (none, s') := by
      rw [hbl, hf, hraw]
      show ∃ s', buildGaze step s w h false true (some qx, some qy) = .ok (none, s')
      unfold buildGaze
      simp only [Bool.false_eq_true, if_false, if_true, pyInt]
      rw [if_neg hext]
      by_cases hw : w ≤ 0 ∨ h ≤ 0
      · rw [if_pos hw]
        exact ⟨_, rfl⟩
      · rw [if_neg hw]
        rcases hx : (step s (truncInt qx) (truncInt qy)).2.1 with _ | px <;>
          rcases hy : (step s (truncInt qx) (truncInt qy)).2.2 with _ | py <;>
            simp only [hx, hy]
        · exact ⟨_, rfl⟩
        · exact ⟨_, rfl⟩
        · exact ⟨_, rfl⟩
        · rw [hx, hy] at hsm
          simp at hsm
    obtain ⟨s', hb⟩ := hb
    rw [hb]
    simp [publishGaze]

/-- Witness for C7: a frame with no features and no blink emits nothing. -/
theorem suppress_invalid_no_emit_witness :
    gazeSent (frameStep noSmootherStep 1920 1080 () 0 0
      ⟨1, false, false, (none, none), none, true, true⟩) = none :=
  (suppress_invalid_no_emit noSmootherStep 1920 1080 () 0 0
    ⟨1, false, false, (none, none), none, true, true⟩ rfl).1 rfl

/-- C8: a stream's `last_*_send_time` changes only when that stream's publish
attempt actually pushed (validation block, rate-limit decline, and transport
failure all leave it unchanged, and a transport failure pushes nothing), and
each stream's publish attempt never touches the other stream's timestamp. -/
theorem send_time_mutated_only_by_success {σ : Type}
    (step : σ → ℤ → ℤ → σ × FloatQ × FloatQ) (w h : ℤ) (s : σ)
    (lastG lastF : ℚ) (f : FrameInput) (out : FrameOut σ)
    (hok : frameStep step w h s lastG lastF f = .ok out) :
    (out.lastGaze = lastG ∨ (out.gazePushed.isSome = true ∧ out.lastGaze = f.now)) ∧
    (out.lastFace = lastF ∨ (out.facePushed.isSome = true ∧ out.lastFace = f.now)) ∧
    (f.gazePushOk = false → out.lastGaze = lastG ∧ out.gazePushed = none) ∧
    (f.facePushOk = false → out.lastFace = lastF ∧ out.facePushed = none) := by
  unfold frameStep at hok
  rcases hb : buildGaze step s w h f.blink f.features f.raw with e | ⟨samp, s'⟩ <;>
    rw [hb] at hok
  · simp at hok
  · rw [Except.ok.injEq] at hok
    subst hok
    refine ⟨?_, ?_, ?_, ?_⟩
    · exact publishGaze_state samp f.now lastG f.gazePushOk
    · exact publishFacemesh_state (buildFacemesh f.face) f.now lastF f.facePushOk
    · intro hfail
      simp only [hfail]
      exact publishGaze_push_fail samp f.now lastG
    · intro hfail
      simp only [hfail]
      exact publishFacemesh_push_fail (buildFacemesh f.face) f.now lastF

/-- Witness for C8 at a concrete blink frame whose gaze publish succeeds and
whose facemesh sample (no face) is blocked. -/
theorem send_time_mutated_only_by_success_witness :
    ((⟨(), 100, 0, some (some 0, some 0, some 1), none⟩ : FrameOut Unit).lastGaze = 0 ∨
      (((⟨(), 100, 0, some (some 0, some 0, some 1), none⟩ : FrameOut Unit).gazePushed.isSome
          = true) ∧
        (⟨(), 100, 0, some (some 0, some 0, some 1), none⟩ : FrameOut Unit).lastGaze =
          (⟨100, true, false, (none, none), none, true, true⟩ : FrameInput).now)) :=
  (send_time_mutated_only_by_success noSmootherStep 1920 1080 () 0 0
    ⟨100, true, false, (none, none), none, true, true⟩
    ⟨(), 100, 0, some (some 0, some 0, some 1), none⟩
    (by
      rw [frameStep_ok noSmootherStep 1920 1080 () 0 0
        ⟨100, true, false, (none, none), none, true, true⟩ rfl]
      have h1 : gazeAllValid (some 0, some 0, some 1) = true := by
        norm_num [gazeAllValid, gazeAxisValid]
      have h2 : gazeRangeValid (some 0, some 0, some 1) = true := by
        norm_num [gazeRangeValid, pyLe]
      have hgz : publishGaze (some (some 0, some 0, some 1)) 100 0 true =
          (some (some 0, some 0, some 1), 100) := by
        simp [publishGaze, h1, h2,
          rateAccept_true (show frameInterval ≤ (100 : ℚ) - 0 by norm_num [frameInterval])]
      have hfm := facemesh_no_face_not_sent 100 0 true
      show Except.ok (⟨(), (publishGaze (some (some 0, some 0, some 1)) 100 0 true).2,
          (publishFacemesh (buildFacemesh none) 100 0 true).2,
          (publishGaze (some (some 0, some 0, some 1)) 100 0 true).1,
          (publishFacemesh (buildFacemesh none) 100 0 true).1⟩ : FrameOut Unit) = _
      rw [hgz, hfm])).1

/-- C9: every facemesh sample a frame actually pushes contains only finite
values — a sample with any sentinel entry, all-sentinel or partially sentinel,
is never published. -/
theorem facemesh_published_all_finite {σ : Type}
    (step : σ → ℤ → ℤ → σ × FloatQ × FloatQ) (w h : ℤ) (s : σ)
    (lastG lastF : ℚ) (f : FrameInput) (out : List FloatQ)
    (hp : faceSent (frameStep step w h s lastG lastF f) = some out) :
    ∀ v ∈ out, v.isSome = true := by
  rw [faceSent_frameStep] at hp
  rcases hb : buildGaze step s w h f.blink f.features f.raw with e | p <;> rw [hb] at hp
  · simp at hp
  · obtain ⟨rfl, hall, -⟩ := publishFacemesh_pushed hp
    intro v hv
    have hax := List.all_eq_true.mp hall v hv
    cases v with
    | none => simp [facemeshAxisValid] at hax
    | some q => rfl

/-- Witness for C9: a frame with a fully valid face publishes its sample, and
the sample's first entry is a finite value. -/
theorem facemesh_published_all_finite_witness :
    (some 0 : FloatQ).isSome = true :=
  facemesh_published_all_finite noSmootherStep 1920 1080 () 0 0
    ⟨100, true, false, (none, none), some goodFace, true, true⟩
    (buildFacemesh (some goodFace))
    (by
      rw [faceSent_frameStep]
      show (publishFacemesh (buildFacemesh (some goodFace)) 100 0 true).1 = _
      rw [goodFace_publish])
    (some 0)
    (by
      apply List.mem_of_mem_take (n := 3)
      have hb : ((buildFacemesh (some goodFace)).drop (3 * 0)).take 3 =
          buildTriple (goodFace (FACEMESH_68_INDICES.getD 0 0)) :=
        flatten_map_block (fun idx => buildTriple (goodFace idx))
          (fun _ => buildTriple_length _) FACEMESH_68_INDICES 0
          (by rw [show FACEMESH_68_INDICES.length = 68 from rfl]; norm_num)
      rw [show (3 : ℕ) * 0 = 0 from rfl, List.drop_zero] at hb
      rw [hb, goodFace_triple]
      simp)

/-- C10: blink samples pass through the same gaze rate limiter — on this
two-frame sequence the first frame publishes a gaze sample at time 1000 and
records it, and the blink frame `1/100` s later builds the blink payload
`(0, 0, 1)` but publishes nothing. -/
theorem blink_sample_rate_limited :
    gazeSent (frameStep noSmootherStep 1920 1080 () 0 0 frame1) =
      some (some (1 / 2), some (1 / 2), some 0) ∧
    lastGazeOf 0 (frameStep noSmootherStep 1920 1080 () 0 0 frame1) = 1000 ∧
    buildGaze noSmootherStep () 1920 1080 frame2.blink frame2.features frame2.raw =
      .ok (some (some 0, some 0, some 1), ()) ∧
    gazeSent (frameStep noSmootherStep 1920 1080 () 1000 0 frame2) = none := by
  have hb1 : buildGaze noSmootherStep () 1920 1080 frame1.blink frame1.features frame1.raw =
      .ok (some (some (1 / 2), some (1 / 2), some 0), ()) := by
    show buildGaze noSmootherStep () 1920 1080 false true (some 960, some 540) = _
    unfold buildGaze
    norm_num [pyInt, truncInt, noSmootherStep, clamp01, min_def, max_def, abs_of_nonneg]
  have h1 : gazeAllValid (some (1 / 2), some (1 / 2), some 0) = true := by
    norm_num [gazeAllValid, gazeAxisValid, abs_of_nonneg]
  have h2 : gazeRangeValid (some (1 / 2), some (1 / 2), some 0) = true := by
    norm_num [gazeRangeValid, pyLe]
  have hgz1 : publishGaze (some (some (1 / 2), some (1 / 2), some 0)) 1000 0 true =
      (some (some (1 / 2), some (1 / 2), some 0), 1000) := by
    simp only [publishGaze, h1, h2,
      rateAccept_true (show frameInterval ≤ (1000 : ℚ) - 0 by norm_num [frameInterval]),
      eq_self_iff_true, if_true]
  have h1b : gazeAllValid (some 0, some 0, some 1) = true := by
    norm_num [gazeAllValid, gazeAxisValid]
  have h2b : gazeRangeValid (some 0, some 0, some 1) = true := by
    norm_num [gazeRangeValid, pyLe]
  have hgz2 : publishGaze (some (some 0, some 0, some 1)) (1000 + 1 / 100) 1000 true =
      (none, 1000) := by
    simp only [publishGaze, h1b, h2b,
      rateAccept_false
        (show ¬ frameInterval ≤ 1000 + 1 / 100 - 1000 by norm_num [frameInterval]),
      eq_self_iff_true, if_true, Bool.false_eq_true, if_false]
  refine ⟨?_, ?_, rfl, ?_⟩
  · rw [frameStep_ok noSmootherStep 1920 1080 () 0 0 frame1 hb1]
    show (publishGaze (some (some (1 / 2), some (1 / 2), some 0)) 1000 0 true).1 = _
    rw [hgz1]
  · rw [frameStep_ok noSmootherStep 1920 1080 () 0 0 frame1 hb1]
    show (publishGaze (some (some (1 / 2), some (1 / 2), some 0)) 1000 0 true).2 = 1000
    rw [hgz1]
  · rw [frameStep_ok noSmootherStep 1920 1080 () 1000 0 frame2 rfl]
    show (publishGaze (some (some 0, some 0, some 1)) (1000 + 1 / 100) 1000 true).1 = none
    rw [hgz2]

end LslServer
